import Mathlib

/-!
Shallow embedding of the device-session core of the Sony AVR integration
(`intg-sonyavr/avr.py`): the derived-state computation, the command buffer,
the notification handlers, the retry wrapper's wait policy, the power-off
watchdog, the connection teardown and the connect guard.  Python state
mutation is modelled by explicit state passing on a `Session` record;
exceptions by `Except`; the event emitter by returned event lists; transport
calls by returned call lists.
-/

/-- The `ucapi.media_player.States` string enumeration. -/
inductive States where
  | UNAVAILABLE
  | UNKNOWN
  | ON
  | OFF
  | PLAYING
  | PAUSED
  | STANDBY
  | BUFFERING
deriving Repr, DecidableEq

/-- The Python string value of each `States` member (`States(str, Enum)`). -/
def States.toStr : States → String
  | .UNAVAILABLE => "UNAVAILABLE"
  | .UNKNOWN => "UNKNOWN"
  | .ON => "ON"
  | .OFF => "OFF"
  | .PLAYING => "PLAYING"
  | .PAUSED => "PAUSED"
  | .STANDBY => "STANDBY"
  | .BUFFERING => "BUFFERING"

/-- Python truthiness of a `States` member: a `str`-enum member is truthy
exactly when its string value is nonempty. -/
def States.pyTruthy (s : States) : Bool := s.toStr ≠ ""

/-- `ucapi.StatusCodes` (the two codes the session code uses). -/
inductive StatusCodes where
  | OK
  | BAD_REQUEST
deriving Repr, DecidableEq

/-- `SONY_PLAYBACK_STATE_MAPPING` from `avr.py`. -/
def SONY_PLAYBACK_STATE_MAPPING (st : String) : Option States :=
  if st = "STOPPED" then some States.ON
  else if st = "PLAYING" then some States.PLAYING
  else if st = "PAUSED" then some States.PAUSED
  else none

def DEFAULT_TIMEOUT : ℕ := 5

def CONNECTION_RETRIES : ℕ := 10

def VOLUME_STEP : ℕ := 2

def BUFFER_LIFETIME : ℕ := 30

/-- `songpal.containers.InterfaceInfo` (the fields the session reads). -/
structure InterfaceInfo where
  modelName : String
  productName : String
deriving Repr, DecidableEq

/-- `songpal.containers.Sysinfo` (the fields the session reads). -/
structure Sysinfo where
  serialNumber : Option String
  macAddr : Option String
  wirelessMacAddr : Option String
deriving Repr, DecidableEq

/-- One entry of `Device.get_inputs()`: uri, title, active flag. -/
structure InputInfo where
  uri : String
  title : String
  active : Bool
deriving Repr, DecidableEq

/-- One entry of `Device.get_volume_information()`. -/
structure VolumeInfo where
  minVolume : ℚ
  maxVolume : ℚ
  volume : ℚ
  is_muted : Bool
deriving Repr, DecidableEq

/-- A sound-mode `Setting`: current value plus candidate titles. -/
structure SoundSetting where
  currentValue : String
  candidate : List String
deriving Repr, DecidableEq

/-- `songpal.ContentChange` push payload (fields the handler reads). -/
structure ContentChange where
  state : Option String
  is_input : Bool
  uri : String
deriving Repr, DecidableEq

/-- `songpal.VolumeChange` push payload. -/
structure VolumeChange where
  volume : ℚ
  mute : Bool
deriving Repr, DecidableEq

/-- `songpal.PowerChange` push payload. -/
structure PowerChange where
  status : Bool
deriving Repr, DecidableEq

/-- The mutable state of a `SonyDevice` session.  Task handles and locks are
modelled as booleans (present/held or not). -/
structure Session where
  id : String
  always_active : Bool
  available : Bool
  connecting : Bool
  interface_info : Option InterfaceInfo
  sysinfo : Option Sysinfo
  unique_id : Option String
  sound_fields : Option SoundSetting
  volume_control : Option VolumeInfo
  volume_min : ℚ
  volume_max : ℚ
  volume : ℚ
  attr_is_volume_muted : Bool
  active_source : Option InputInfo
  sources : List (String × InputInfo)
  powered : Bool
  playback_state : States
  state : States
  play_info : Option (List ContentChange)
  websocket_task : Bool
  connect_lock : Bool
  connect_task : Bool
  check_device_task : Bool
deriving Repr, DecidableEq

namespace SonyDevice

/-- `SonyDevice.update_state`: recompute the derived `_state` from `_powered`
and `_playback_state`; the boolean reports whether the state changed. -/
def update_state (s : Session) : Session × Bool :=
  let old_state := s.state
  let new_state :=
    if !s.powered then States.OFF
    else if s.playback_state.pyTruthy && !(s.playback_state == States.UNKNOWN) then
      s.playback_state
    else States.ON
  ({ s with state := new_state }, old_state != new_state)

end SonyDevice

/-- The value `update_state` assigns to `_state`, as a standalone formula. -/
def derived_state (powered : Bool) (playback_state : States) : States :=
  if !powered then States.OFF
  else if playback_state.pyTruthy && !(playback_state == States.UNKNOWN) then playback_state
  else States.ON

/-- Ascending order on buffered-command entries: `sorted(dict.items())`
compares by key (the submission timestamp). -/
def keyLE {α : Type} (a b : ℕ × α) : Prop := a.1 ≤ b.1

instance {α : Type} : DecidableRel (keyLE (α := α)) :=
  fun a b => inferInstanceAs (Decidable (a.1 ≤ b.1))

instance {α : Type} : IsTotal (ℕ × α) keyLE :=
  ⟨fun a b => Nat.le_total a.1 b.1⟩

instance {α : Type} : IsTrans (ℕ × α) keyLE :=
  ⟨fun _ _ _ h h' => Nat.le_trans h h'⟩

namespace SonyDevice

/-- `SonyDevice._run_buffered_commands`: iterate the buffered callbacks in
ascending timestamp order, deleting each entry as it is visited, and execute
exactly those whose age `now - timestamp` is within `BUFFER_LIFETIME`
(execution exceptions are swallowed, so a failing command does not abort the
drain).  The result is the list of entries actually executed, in execution
order. -/
def run_buffered_commands {α : Type} (now : ℕ) (buffered_callbacks : List (ℕ × α)) :
    List (ℕ × α) :=
  (List.insertionSort keyLE buffered_callbacks).filter
    (fun p => now - p.1 ≤ BUFFER_LIFETIME)

end SonyDevice

/-- Python `round()` on a rational: round half to even. -/
def pyround (x : ℚ) : ℤ :=
  let f := ⌊x⌋
  if x - f < 1/2 then f
  else if (1 : ℚ)/2 < x - f then f + 1
  else if f % 2 = 0 then f else f + 1

/-- Python `int()` on a rational: truncation toward zero. -/
def pytrunc (x : ℚ) : ℤ := if 0 ≤ x then ⌊x⌋ else ⌈x⌉

/-- The `ucapi.media_player.Attributes` keys the session emits. -/
inductive Attr where
  | STATE
  | MUTED
  | VOLUME
  | SOURCE
deriving Repr, DecidableEq

/-- An attribute value carried in an UPDATE payload. -/
inductive AVal where
  | i (z : ℤ)
  | q (x : ℚ)
  | b (v : Bool)
  | s (v : Option String)
  | st (v : States)
deriving Repr, DecidableEq

/-- An event emitted on the session's event emitter.  UPDATE carries either
`none` (meaning refetch everything) or a partial attribute mapping. -/
inductive Event where
  | CONNECTED
  | DISCONNECTED
  | UPDATE (payload : Option (List (Attr × AVal)))
deriving Repr, DecidableEq

namespace SonyDevice

/-- The `volume_level` property: `round(self._volume)`. -/
def volume_level (s : Session) : ℤ := pyround s.volume

/-- The `source` property: `getattr(self._active_source, "title", None)`. -/
def source (s : Session) : Option String := s.active_source.map (·.title)

/-- The `_volume_changed` notification handler: update the cached volume and
mute flag when they differ from the incoming values and emit one UPDATE with
exactly the changed keys, or nothing when nothing changed. -/
def volume_changed (s : Session) (volume : VolumeChange) : Session × List Event :=
  let (s1, attr1) :=
    if s.volume ≠ volume.volume then
      ({ s with volume := volume.volume },
        [(Attr.VOLUME, AVal.i (volume_level { s with volume := volume.volume }))])
    else (s, [])
  let (s2, attr2) :=
    if s1.attr_is_volume_muted ≠ volume.mute then
      ({ s1 with attr_is_volume_muted := volume.mute },
        attr1 ++ [(Attr.MUTED, AVal.b volume.mute)])
    else (s1, attr1)
  if attr2 ≠ [] then (s2, [Event.UPDATE (some attr2)]) else (s2, [])

/-- The playback-state block of `_source_changed`: when the notification
carries a truthy state string that maps through
`SONY_PLAYBACK_STATE_MAPPING`, store the mapped playback state, recompute the
derived state, and record a STATE entry when it changed. -/
def source_changed_step (s0 : Session) (content : ContentChange) :
    Session × List (Attr × AVal) :=
  match content.state with
  | some stateStr =>
    if stateStr ≠ "" then
      match SONY_PLAYBACK_STATE_MAPPING stateStr with
      | some ps =>
        let us := update_state { s0 with playback_state := ps }
        if us.2 then (us.1, [(Attr.STATE, AVal.st us.1.state)]) else (us.1, [])
      | none => (s0, [])
    else (s0, [])
  | none => (s0, [])

/-- The `_source_changed` notification handler.  `none` models the `KeyError`
raised when `content.uri` is not a key of `self._sources`.  When the
notification identifies an active input, the handler emits an UPDATE
unconditionally (it does not compare the incoming source against the cached
one); otherwise it emits only when the payload is nonempty. -/
def source_changed (s : Session) (content : ContentChange) :
    Option (Session × List Event) :=
  let step := source_changed_step { s with play_info := some [content] } content
  let s1 := step.1
  let updated_data := step.2
  if content.is_input then
    match s1.sources.find? (fun pr => pr.1 = content.uri) with
    | none => none
    | some pr =>
      let s2 := { s1 with active_source := some pr.2 }
      some (s2, [Event.UPDATE
        (some (updated_data ++ [(Attr.SOURCE, AVal.s (source s2))]))])
  else if updated_data ≠ [] then some (s1, [Event.UPDATE (some updated_data)])
  else some (s1, [])

/-- The `_power_changed` notification handler: store the incoming powered
flag, recompute the derived state and emit a STATE update only when it
changed, then start the power-off watchdog (when newly OFF and not
always-active) or cancel it (when in a live state). -/
def power_changed (s : Session) (power : PowerChange) : Session × List Event :=
  let us := update_state { s with powered := power.status }
  let s2 := us.1
  let events :=
    if us.2 then [Event.UPDATE (some [(Attr.STATE, AVal.st s2.state)])] else []
  let s3 :=
    if s2.state = States.OFF ∧ s2.always_active = false then
      (if s2.check_device_task = false then { s2 with check_device_task := true }
       else s2)
    else if s2.state ∉ [States.UNKNOWN, States.UNAVAILABLE] ∧
        s2.check_device_task = true then
      { s2 with check_device_task := false }
    else s2
  (s3, events)

/-- `SonyDevice.set_volume_level`: `None` yields a BAD_REQUEST with no
transport call; otherwise the raw target
`int(volume * (max - min) / 100 + min)` is issued to the volume control (the
middle component), the cached volume is overwritten with the 0..100 input,
and one VOLUME update is emitted. -/
def set_volume_level (s : Session) (volume : Option ℚ) :
    Session × Option ℤ × List Event :=
  match volume with
  | none => (s, none, [])
  | some v =>
    let volume_sony := v * (s.volume_max - s.volume_min) / 100 + s.volume_min
    let s1 := { s with volume := v }
    (s1, some (pytrunc volume_sony),
      [Event.UPDATE (some [(Attr.VOLUME, AVal.i (volume_level s1))])])

end SonyDevice

/-- A session snapshot used as the base of the concrete scenarios: device ON,
volume bounds 0..50, raw volume 25, one HDMI input titled "TV". -/
def sessionDefault : Session :=
  { id := "avr1", always_active := false, available := true, connecting := false,
    interface_info := none, sysinfo := none, unique_id := none,
    sound_fields := none, volume_control := none, volume_min := 0,
    volume_max := 50, volume := 25, attr_is_volume_muted := false,
    active_source := none,
    sources := [("extInput:hdmi1", ⟨"extInput:hdmi1", "TV", true⟩)],
    powered := true, playback_state := States.UNKNOWN, state := States.ON,
    play_info := none, websocket_task := true, connect_lock := false,
    connect_task := false, check_device_task := false }

/-- The content notification of the C3 scenario: an active-input change whose
uri is a key of `sessionDefault`'s sources. -/
def contentHdmi : ContentChange :=
  { state := none, is_input := true, uri := "extInput:hdmi1" }

/-- The playback state a content notification maps to, when its `state`
field is truthy and maps through `SONY_PLAYBACK_STATE_MAPPING` (the guard of
the playback block of `_source_changed`). -/
def mappedState (content : ContentChange) : Option States :=
  match content.state with
  | some str => if str ≠ "" then SONY_PLAYBACK_STATE_MAPPING str else none
  | none => none

/-- A Python exception raised by a wrapped command body: a transport
(`SongpalException`) error with its code, or any other exception. -/
inductive PyExc where
  | songpal (code : ℕ)
  | other
deriving Repr, DecidableEq

/-- The outcome of one attempt of a wrapped command body. -/
abbrev Attempt := Except PyExc Unit

/-- The wait bound of `retry_call_command`'s `asyncio.timeout`:
`max(timeout - 1, 1)` seconds. -/
def max_connect_wait (timeout : ℕ) : ℕ := max (timeout - 1) 1

/-- `retry_call_command`: after ensuring a reconnect task runs, either buffer
the command and return OK immediately (`bufferize`), or wait for the
reconnect task — `connect_wait` is when that task would complete, the wait is
capped at `max_connect_wait timeout` — then attempt the command once, any
raised exception propagating to the caller.  Result: the command's result or
exception, the seconds spent blocked, and whether the command was buffered. -/
def retry_call_command (timeout : ℕ) (bufferize : Bool) (connect_wait : ℕ)
    (attempt : Attempt) : (Except PyExc StatusCodes) × ℕ × Bool :=
  if bufferize then (Except.ok StatusCodes.OK, 0, true)
  else
    let waited := min connect_wait (max_connect_wait timeout)
    match attempt with
    | Except.ok _ => (Except.ok StatusCodes.OK, waited, false)
    | Except.error e => (Except.error e, waited, false)

/-- The `retry` decorator's wrapper: on an available session attempt the
command directly (discarding its inner status) and return OK; on a transport
error, or when the session is unavailable, fall back to
`retry_call_command` — and when that call raises a transport error, fall
back to `retry_call_command` once more inside the `except SongpalException`
handler, whose own inner `except SongpalException` turns a persistent
transport error into BAD_REQUEST.  A non-transport exception raised by the
direct attempt or by the first fallback is caught by the sibling
`except Exception` and becomes BAD_REQUEST, but one raised inside the
`except SongpalException` handler is not caught by a sibling handler and
escapes the wrapper to the caller.  Result: the outcome delivered to the
caller (a status, or the escaped exception) and the total seconds the caller
was blocked waiting on the reconnect task. -/
def retry_wrapper (timeout : ℕ) (bufferize : Bool) (available : Bool)
    (direct : Attempt) (connect_wait1 : ℕ) (attempt1 : Attempt)
    (connect_wait2 : ℕ) (attempt2 : Attempt) : Except PyExc StatusCodes × ℕ :=
  if available then
    match direct with
    | Except.ok _ => (Except.ok StatusCodes.OK, 0)
    | Except.error (PyExc.songpal _) =>
      match retry_call_command timeout bufferize connect_wait1 attempt1 with
      | (Except.ok st, w, _) => (Except.ok st, w)
      | (Except.error (PyExc.songpal _), w, _) =>
        (Except.ok StatusCodes.BAD_REQUEST, w)
      | (Except.error PyExc.other, w, _) => (Except.error PyExc.other, w)
    | Except.error PyExc.other => (Except.ok StatusCodes.BAD_REQUEST, 0)
  else
    match retry_call_command timeout bufferize connect_wait1 attempt1 with
    | (Except.ok st, w1, _) => (Except.ok st, w1)
    | (Except.error (PyExc.songpal _), w1, _) =>
      match retry_call_command timeout bufferize connect_wait2 attempt2 with
      | (Except.ok st, w2, _) => (Except.ok st, w1 + w2)
      | (Except.error (PyExc.songpal _), w2, _) =>
        (Except.ok StatusCodes.BAD_REQUEST, w1 + w2)
      | (Except.error PyExc.other, w2, _) => (Except.error PyExc.other, w1 + w2)
    | (Except.error PyExc.other, w1, _) => (Except.ok StatusCodes.BAD_REQUEST, w1)

/-- A call issued to the receiver transport. -/
inductive TransportCall where
  | set_power (value : Bool)
  | activate (uri : String)
  | set_volume (v : ℤ)
  | set_mute (m : Bool)
  | stop_listen
deriving Repr, DecidableEq

namespace SonyDevice

/-- `SonyDevice.select_source` body (run with the transport healthy): a falsy
source yields BAD_REQUEST with no transport call; otherwise `set_power(True)`
is issued, the sources are scanned in order and the first input whose title
equals the requested source is activated with inner status OK; when none
matches the body logs an error and falls off the end, returning `none`
(Python `None`), having issued only the power-on call. -/
def select_source (s : Session) (source : Option String) :
    Option StatusCodes × List TransportCall :=
  match source with
  | none => (some StatusCodes.BAD_REQUEST, [])
  | some src =>
    if src = "" then (some StatusCodes.BAD_REQUEST, [])
    else
      match s.sources.find? (fun pr => pr.2.title = src) with
      | some pr =>
        (some StatusCodes.OK, [TransportCall.set_power true,
          TransportCall.activate pr.2.uri])
      | none => (none, [TransportCall.set_power true])

/-- `_wait_power_on` loop body: starting from elapsed time `t` and counter
`check_number`, sleep 10 seconds, exit when the state is ON, otherwise bump
the counter and close the connections once it exceeds `max_checks = 10`.
Result: (total elapsed seconds, final check counter, number of
`close_connections()` invocations).  `fuel` dominates the loop's own bound
(the counter reaches 11 after at most 11 iterations). -/
def wait_power_on_go (stateAt : ℕ → States) : ℕ → ℕ → ℕ → ℕ × ℕ × ℕ
  | t, c, 0 => (t, c, 0)
  | t, c, fuel + 1 =>
    let t' := t + 10
    if stateAt t' = States.ON then (t', c, 0)
    else
      let c' := c + 1
      if 10 < c' then (t', c', 1)
      else wait_power_on_go stateAt t' c' fuel

/-- `_wait_power_on`: poll `self.state` every 10 seconds against a state
trace; exit silently when the state is ON at a poll, and close the
connections when the counter exceeds `max_checks = 10` consecutive off
polls. -/
def wait_power_on (stateAt : ℕ → States) : ℕ × ℕ × ℕ :=
  wait_power_on_go stateAt 0 0 12

/-- `SonyDevice.close_connections`: a no-op while a connect is in flight;
otherwise clear the powered flag, cancel the reconnect task if present, tell
the transport to stop listening, and cancel the websocket task if present. -/
def close_connections (s : Session) : Session × List TransportCall :=
  if s.connecting then (s, [])
  else
    let s1 := { s with powered := false }
    let s2 := if s1.connect_task then { s1 with connect_task := false } else s1
    let s3 := if s2.websocket_task then { s2 with websocket_task := false } else s2
    (s3, [TransportCall.stop_listen])

/-- `SonyDevice.disconnect`: run `close_connections`, then unconditionally
clear the available flag and, when the id is truthy, emit DISCONNECTED. -/
def disconnect (s : Session) : (Session × List TransportCall) × List Event :=
  let r := close_connections s
  let s1 := { r.1 with available := false }
  let events := if s1.id ≠ "" then [Event.DISCONNECTED] else []
  ((s1, r.2), events)

end SonyDevice

/-- Insertion into an `OrderedDict`: replace in place when the key exists,
append otherwise. -/
def ordered_dict_insert (m : List (String × InputInfo)) (k : String)
    (v : InputInfo) : List (String × InputInfo) :=
  if m.any (fun pr => pr.1 = k) then
    m.map (fun pr => if pr.1 = k then (k, v) else pr)
  else m ++ [(k, v)]

/-- The responses the receiver transport gives to the calls `connect()`
makes, each either a value or a raised transport error code. -/
structure Transport where
  supported_methods : Except ℕ Unit
  interface_information : Except ℕ InterfaceInfo
  system_info : Except ℕ Sysinfo
  sound_settings : Except ℕ (List SoundSetting)
  volume_information : Except ℕ (List VolumeInfo)
  power_status : Except ℕ Bool
  inputs : Except ℕ (List InputInfo)
  play_information : Except ℕ (List ContentChange)

namespace SonyDevice

/-- The body of `connect()` once the lock is acquired: probe supported
methods, lazily fetch interface and system info, derive the unique id
(serial, then wired MAC, then wireless MAC), fetch sound fields, volume
controls (bail out unavailable when none, else use the first), power status,
inputs (rebuilding `sources` and keeping the previous active source when no
input is active), play info; recompute the derived state, mark available,
emit CONNECTED and a full-refresh UPDATE, and reactivate the websocket.  A
raised transport error propagates to `connect`'s handler. -/
def connect_attempt (t : Transport) (s : Session) :
    Except ℕ (Session × List Event) := do
  let _ ← t.supported_methods
  let s ←
    match s.interface_info with
    | none => do
      let ii ← t.interface_information
      pure { s with interface_info := some ii }
    | some _ => pure s
  let s ←
    match s.sysinfo with
    | none => do
      let si ← t.system_info
      pure { s with sysinfo := some si }
    | some _ => pure s
  let uid :=
    match s.sysinfo with
    | some si => (si.serialNumber.orElse fun _ =>
        si.macAddr.orElse fun _ => si.wirelessMacAddr)
    | none => none
  let s := { s with unique_id := uid }
  let settings ← t.sound_settings
  let s := { s with sound_fields := settings.head? }
  let volumes ← t.volume_information
  match volumes with
  | [] => pure ({ s with available := false }, ([] : List Event))
  | volume :: _ =>
    let s := { s with volume_max := volume.maxVolume,
                      volume_min := volume.minVolume,
                      volume := volume.volume,
                      volume_control := some volume,
                      attr_is_volume_muted := volume.is_muted }
    let status ← t.power_status
    let s := { s with powered := status }
    let ins ← t.inputs
    let s := { s with
      sources := ins.foldl
        (fun (m : List (String × InputInfo)) (i : InputInfo) =>
          ordered_dict_insert m i.uri i) [],
      active_source := ins.foldl
        (fun (a : Option InputInfo) (i : InputInfo) =>
          if i.active then some i else a) s.active_source }
    let pi ← t.play_information
    let s := { s with play_info := some pi }
    let s := (update_state s).1
    let s := { s with available := true }
    let s := { s with websocket_task := true }
    pure (s, [Event.CONNECTED, Event.UPDATE none])

/-- `SonyDevice.connect()`: the body is guarded by `if lock.locked(): return`
inside a `try/finally` whose `finally` clause clears `_connecting` and
releases the lock — so the early-return path still runs the `finally` and
releases the lock held by the in-flight connect.  On a transport error the
reconnect task is started if absent and the session marked unavailable. -/
def connect (t : Transport) (s : Session) : Session × List Event :=
  if s.connect_lock then
    ({ s with connecting := false, connect_lock := false }, [])
  else
    let s0 := { s with connect_lock := true, connecting := true }
    match connect_attempt t s0 with
    | Except.ok (s1, events) =>
      ({ s1 with connecting := false, connect_lock := false }, events)
    | Except.error _ =>
      let s1 := { s0 with connect_task := true, available := false }
      ({ s1 with connecting := false, connect_lock := false }, [])

/-- `SonyDevice.power_off` body: issue `set_power(False)`, whose outcome is
`set_power_result`; a transport error with code 40000 is swallowed ("device
is probably already off") and the cached state set to OFF; any other error is
re-raised. -/
def power_off (set_power_result : Except ℕ Unit) (s : Session) :
    Except ℕ Session :=
  match set_power_result with
  | Except.ok _ => Except.ok s
  | Except.error code =>
    if code = 40000 then Except.ok { s with state := States.OFF }
    else Except.error code

end SonyDevice

/-- The exception view of a command body's outcome, as the `retry` wrapper
sees it: a transport error becomes a raised `SongpalException`. -/
def attempt_of (r : Except ℕ Session) : Attempt :=
  match r with
  | Except.ok _ => Except.ok ()
  | Except.error c => Except.error (PyExc.songpal c)

/-- A session with a connect currently in flight. -/
def sessionConnecting : Session :=
  { sessionDefault with connecting := true, connect_task := true }

/-- A session whose connect lock is held by an in-flight `connect()`. -/
def sessionLocked : Session :=
  { sessionDefault with connect_lock := true, connecting := true }

/-- A transport whose every call raises (never consulted on the guarded
paths under study). -/
def transportDown : Transport :=
  { supported_methods := Except.error 1, interface_information := Except.error 1,
    system_info := Except.error 1, sound_settings := Except.error 1,
    volume_information := Except.error 1, power_status := Except.error 1,
    inputs := Except.error 1, play_information := Except.error 1 }

/-! ## Theorems -/

theorem update_state_derived (s : Session) :
    (SonyDevice.update_state s).1.state = derived_state s.powered s.playback_state := by
  rfl

/-- C1: for every pair (powered, playback_state), the state computed by
`update_state()` is OFF when powered is false, otherwise the playback state
when it is set and not UNKNOWN, otherwise ON; in particular
playback_state = UNKNOWN with powered true yields ON. -/
theorem update_state_formula :
    ∀ s : Session,
      ((SonyDevice.update_state s).1.state =
        if s.powered = false then States.OFF
        else if s.playback_state ≠ States.UNKNOWN then s.playback_state
        else States.ON) ∧
      (s.powered = true → s.playback_state = States.UNKNOWN →
        (SonyDevice.update_state s).1.state = States.ON) := by
  intro s
  constructor
  · rw [update_state_derived]
    cases hp : s.powered <;> cases hps : s.playback_state <;>
      simp [derived_state, States.pyTruthy, States.toStr]
  · intro hp hps
    rw [update_state_derived, hp, hps]
    rfl

/-- C2: draining the command buffer executes buffered commands in ascending
submission-timestamp order, executes each buffered entry at most as often as
it occurs in the buffer (hence at most once, dict keys being distinct), and
drops without executing any command whose age at drain time exceeds the
30-second `BUFFER_LIFETIME`; commands buffered at t=0,1,2 all run in that
order when draining at t=5, and none runs when draining at t=35. -/
theorem run_buffered_commands_order_expiry (α : Type) (now : ℕ)
    (buf : List (ℕ × α)) :
    List.Sorted keyLE (SonyDevice.run_buffered_commands now buf) ∧
    (buf.Nodup → (SonyDevice.run_buffered_commands now buf).Nodup) ∧
    (∀ e : ℕ × α, e ∈ buf → BUFFER_LIFETIME < now - e.1 →
      e ∉ SonyDevice.run_buffered_commands now buf) ∧
    SonyDevice.run_buffered_commands 5 [(0, 100), (1, 101), (2, 102)] =
      [(0, 100), (1, 101), (2, 102)] ∧
    SonyDevice.run_buffered_commands 35 [(0, 100), (1, 101), (2, 102)] = [] := by
  refine ⟨?_, ?_, ?_, by decide, by decide⟩
  · exact List.Pairwise.filter _ (List.sorted_insertionSort keyLE buf)
  · intro h
    exact ((List.perm_insertionSort keyLE buf).nodup_iff.mpr h).filter _
  · intro e _ hage hmem
    have := List.of_mem_filter hmem
    simp only [decide_eq_true_eq] at this
    omega

theorem volume_changed_cache (s : Session) (v : VolumeChange) :
    (SonyDevice.volume_changed s v).1.volume = v.volume ∧
    (SonyDevice.volume_changed s v).1.attr_is_volume_muted = v.mute := by
  unfold SonyDevice.volume_changed
  by_cases h1 : s.volume = v.volume <;> by_cases h2 : s.attr_is_volume_muted = v.mute <;>
    simp [h1, h2]

theorem volume_changed_noop (s : Session) (v : VolumeChange)
    (h1 : s.volume = v.volume) (h2 : s.attr_is_volume_muted = v.mute) :
    SonyDevice.volume_changed s v = (s, []) := by
  unfold SonyDevice.volume_changed
  simp [h1, h2]

theorem volume_changed_second (s : Session) (v : VolumeChange) :
    (SonyDevice.volume_changed (SonyDevice.volume_changed s v).1 v).2 = [] := by
  obtain ⟨h1, h2⟩ := volume_changed_cache s v
  rw [volume_changed_noop _ _ h1 h2]

theorem power_changed_snd (s : Session) (p : PowerChange) :
    (SonyDevice.power_changed s p).2 =
      if s.state != derived_state p.status s.playback_state then
        [Event.UPDATE (some [(Attr.STATE,
          AVal.st (derived_state p.status s.playback_state))])]
      else [] := rfl

theorem power_changed_fst (s : Session) (p : PowerChange) :
    (SonyDevice.power_changed s p).1.powered = p.status ∧
    (SonyDevice.power_changed s p).1.playback_state = s.playback_state ∧
    (SonyDevice.power_changed s p).1.state =
      derived_state p.status s.playback_state := by
  unfold SonyDevice.power_changed SonyDevice.update_state
  refine ⟨?_, ?_, ?_⟩ <;>
    simp [derived_state, apply_ite Session.powered,
      apply_ite Session.playback_state, apply_ite Session.state]

theorem power_changed_second (s : Session) (p : PowerChange) :
    (SonyDevice.power_changed (SonyDevice.power_changed s p).1 p).2 = [] := by
  obtain ⟨_, h2, h3⟩ := power_changed_fst s p
  rw [power_changed_snd, h2, h3]
  simp

theorem source_changed_step_eq (s0 : Session) (c : ContentChange) :
    SonyDevice.source_changed_step s0 c =
      match mappedState c with
      | some ps =>
        if s0.state != derived_state s0.powered ps then
          ({ s0 with playback_state := ps, state := derived_state s0.powered ps },
            [(Attr.STATE, AVal.st (derived_state s0.powered ps))])
        else
          ({ s0 with playback_state := ps, state := derived_state s0.powered ps }, [])
      | none => (s0, []) := by
  unfold SonyDevice.source_changed_step mappedState SonyDevice.update_state
  rcases hc : c.state with _ | str
  · rfl
  · by_cases h0 : str = ""
    · simp [h0]
    · rcases hm : SONY_PLAYBACK_STATE_MAPPING str with _ | ps
      · simp [h0, hm]
      · simp only [ne_eq, h0, not_false_iff, if_true, hm]
        rfl

theorem source_changed_no_input_second (s : Session) (c : ContentChange)
    (hin : c.is_input = false) (s1 : Session) (evs1 : List Event)
    (h : SonyDevice.source_changed s c = some (s1, evs1)) :
    (SonyDevice.source_changed s1 c).map Prod.snd = some ([] : List Event) := by
  unfold SonyDevice.source_changed at h ⊢
  rw [source_changed_step_eq] at h ⊢
  rcases hm : mappedState c with _ | ps
  · simp only [hm, hin] at h ⊢
    simp at h
    obtain ⟨rfl, -⟩ := h
    simp
  · simp only [hm, hin] at h ⊢
    simp at h
    by_cases hb : s.state = derived_state s.powered ps
    · simp [hb] at h
      obtain ⟨rfl, -⟩ := h
      simp [hb]
    · simp [hb] at h
      obtain ⟨rfl, -⟩ := h
      simp

theorem source_changed_input_emits (s : Session) (c : ContentChange)
    (hin : c.is_input = true) (pr : String × InputInfo)
    (hfind : s.sources.find? (fun pr2 => pr2.1 = c.uri) = some pr) :
    ∃ payload, (SonyDevice.source_changed s c).map Prod.snd =
      some [Event.UPDATE (some payload)] := by
  unfold SonyDevice.source_changed
  rw [source_changed_step_eq]
  rcases hm : mappedState c with _ | ps
  · simp [hm, hin, hfind]
  · simp only [hm, hin]
    by_cases hb : s.state = derived_state s.powered ps <;> simp [hb, hfind]

/-- C3 (amended): the volume/mute and power handlers are idempotent — after a
notification is applied, delivering the identical notification again emits no
event — and so is the content handler when the notification does not identify
an active input; but a content notification that identifies an active input
found in `sources` emits an UPDATE carrying the SOURCE key on every delivery,
even when nothing changed, so for that notification kind the second identical
delivery is not a no-op. -/
theorem notification_second_delivery (s : Session) (v : VolumeChange)
    (p : PowerChange) (c : ContentChange) :
    (SonyDevice.volume_changed (SonyDevice.volume_changed s v).1 v).2 = [] ∧
    (SonyDevice.power_changed (SonyDevice.power_changed s p).1 p).2 = [] ∧
    (c.is_input = false → ∀ s1 evs1,
      SonyDevice.source_changed s c = some (s1, evs1) →
      (SonyDevice.source_changed s1 c).map Prod.snd = some ([] : List Event)) ∧
    (c.is_input = true → ∀ pr : String × InputInfo,
      s.sources.find? (fun pr2 => pr2.1 = c.uri) = some pr →
      ∃ payload, (SonyDevice.source_changed s c).map Prod.snd =
        some [Event.UPDATE (some payload)]) :=
  ⟨volume_changed_second s v, power_changed_second s p,
   fun hin s1 evs1 h => source_changed_no_input_second s c hin s1 evs1 h,
   fun hin pr hfind => source_changed_input_emits s c hin pr hfind⟩

/-- C3 counterexample: delivering the same active-input content notification
twice to `sessionDefault` emits an UPDATE event on both deliveries — the
second identical delivery emits `[UPDATE {source}]`, not nothing — refuting
the claim that every handler emits only when the incoming value differs from
the cached one. -/
theorem source_changed_second_delivery_emits :
    (SonyDevice.source_changed sessionDefault contentHdmi).map Prod.snd =
      some [Event.UPDATE (some [(Attr.SOURCE, AVal.s (some "TV"))])] ∧
    ((SonyDevice.source_changed sessionDefault contentHdmi).bind
      fun r => SonyDevice.source_changed r.1 contentHdmi).map Prod.snd =
      some [Event.UPDATE (some [(Attr.SOURCE, AVal.s (some "TV"))])] ∧
    [Event.UPDATE (some [(Attr.SOURCE, AVal.s (some "TV"))])] ≠ ([] : List Event) := by
  refine ⟨rfl, rfl, by simp⟩

/-- C4 counterexample: a `setVolume`-style non-bufferable command issued
while the session is unavailable, with the reconnect never completing and
both command attempts raising transport errors, blocks the caller for
4 + 4 = 8 seconds of reconnect waiting — more than the claimed 5-second
bound — because the wrapper waits `max(5-1,1) = 4` seconds and does so twice. -/
theorem retry_wrapper_waits_eight :
    retry_wrapper 5 false false (Except.ok ()) 100
        (Except.error (PyExc.songpal 1)) 100 (Except.error (PyExc.songpal 1)) =
      (Except.ok StatusCodes.BAD_REQUEST, 8) ∧ ¬(8 ≤ 5) := by
  exact ⟨rfl, by decide⟩

/-- C4 (amended): a non-bufferable command issued while the session is
unavailable delivers OK (when an attempt succeeds) or BAD_REQUEST (on
persistent transport failure), except that a non-transport exception raised
by the attempt retried inside the `except SongpalException` handler escapes
the wrapper; a transport exception never escapes.  Each reconnect wait is
capped at `max(5-1,1) = 4` seconds and at most two such waits occur, so the
caller is blocked at most 8 seconds (not 5); when the retry attempt succeeds
the wrapper returns OK after a single wait of `min connect_wait 4`
seconds. -/
theorem retry_wrapper_bounded :
    ∀ (bufferize available : Bool) (direct : Attempt) (cw1 : ℕ) (a1 : Attempt)
      (cw2 : ℕ) (a2 : Attempt),
      (retry_wrapper 5 bufferize available direct cw1 a1 cw2 a2).2 ≤ 8 ∧
      ((retry_wrapper 5 bufferize available direct cw1 a1 cw2 a2).1 =
          Except.ok StatusCodes.OK ∨
        (retry_wrapper 5 bufferize available direct cw1 a1 cw2 a2).1 =
          Except.ok StatusCodes.BAD_REQUEST ∨
        (retry_wrapper 5 bufferize available direct cw1 a1 cw2 a2).1 =
          Except.error PyExc.other) ∧
      (available = false → bufferize = false → a1 = Except.ok () →
        retry_wrapper 5 bufferize available direct cw1 a1 cw2 a2 =
          (Except.ok StatusCodes.OK, min cw1 4)) := by
  intro bufferize available direct cw1 a1 cw2 a2
  cases available <;> cases bufferize <;>
    rcases direct with (cD | _) | _ <;>
    rcases a1 with (c1 | _) | _ <;>
    rcases a2 with (c2 | _) | _ <;>
    refine ⟨?_, ?_, ?_⟩ <;>
    simp [retry_wrapper, retry_call_command, max_connect_wait] <;>
    omega

/-- C5: in the scenario with volume bounds min=0, max=50 and current raw
volume 25, the `volume_level` accessor returns `round(25) = 25` — the raw
cached volume, not the claimed range percentage 50 — while
`set_volume_level(75)` does compute and issue the raw target
`int(75 * (50-0)/100 + 0) = 37` and caches the 0..100 value 75. -/
theorem volume_scenario_eval :
    SonyDevice.volume_level sessionDefault = 25 ∧
    ((25 : ℤ) = 50 → False) ∧
    (SonyDevice.set_volume_level sessionDefault (some 75)).2.1 = some 37 ∧
    (SonyDevice.set_volume_level sessionDefault (some 75)).1.volume = 75 := by
  have hfloor : ⌊(75 * (50 - 0) / 100 + 0 : ℚ)⌋ = 37 := by
    rw [Int.floor_eq_iff]
    norm_num
  refine ⟨?_, by decide, ?_, rfl⟩
  · show pyround (25 : ℚ) = 25
    norm_num [pyround]
  · show (SonyDevice.set_volume_level sessionDefault (some 75)).2.1 = some 37
    simp only [SonyDevice.set_volume_level, sessionDefault]
    norm_num [pytrunc, hfloor]

/-- C6 counterexample: `select_source("HDMI1")` on an available session whose
only input is titled "TV" issues just `set_power(True)`, activates nothing,
and the body returns `None`; the wrapper then reports OK — not the claimed
client-error status — because the available-session path discards the body's
result. -/
theorem select_source_unknown_returns_ok :
    (SonyDevice.select_source sessionDefault (some "HDMI1")).1 = none ∧
    (SonyDevice.select_source sessionDefault (some "HDMI1")).2 =
      [TransportCall.set_power true] ∧
    (retry_wrapper 5 true true (Except.ok ()) 0 (Except.ok ()) 0
      (Except.ok ())).1 = Except.ok StatusCodes.OK ∧
    StatusCodes.OK ≠ StatusCodes.BAD_REQUEST := by
  refine ⟨rfl, rfl, rfl, by decide⟩

/-- C6 (amended): when no input's title equals the requested (truthy) source,
`select_source` issues only the power-on prerequisite — no `activate()` — and
its body returns `None`; the available-session wrapper then returns OK (the
body's status is discarded), not a client-error. -/
theorem select_source_no_match (s : Session) (src : String) (hsrc : src ≠ "")
    (hmiss : ∀ pr ∈ s.sources, pr.2.title ≠ src) :
    SonyDevice.select_source s (some src) =
      (none, [TransportCall.set_power true]) ∧
    (retry_wrapper 5 true true (Except.ok ()) 0 (Except.ok ()) 0
      (Except.ok ())).1 = Except.ok StatusCodes.OK := by
  have hfind : s.sources.find? (fun pr => pr.2.title = src) = none := by
    rw [List.find?_eq_none]
    intro pr hpr
    simpa using hmiss pr hpr
  refine ⟨?_, rfl⟩
  simp only [SonyDevice.select_source]
  rw [if_neg hsrc, hfind]

theorem select_source_no_match_witness :
    SonyDevice.select_source sessionDefault (some "HDMI1") =
      (none, [TransportCall.set_power true]) ∧
    (retry_wrapper 5 true true (Except.ok ()) 0 (Except.ok ()) 0
      (Except.ok ())).1 = Except.ok StatusCodes.OK :=
  select_source_no_match sessionDefault "HDMI1" (by decide) (by decide)

/-- C7 counterexample: with the device off at every poll the watchdog makes
11 checks over 110 seconds before invoking `close_connections` — not the
claimed 10 checks within 100 seconds — because the loop closes only when
`check_number > max_checks` with `max_checks = 10`, which first holds at the
11th check. -/
theorem wait_power_on_eleven_checks :
    SonyDevice.wait_power_on (fun _ => States.OFF) = (110, 11, 1) ∧
    (11 : ℕ) ≠ 10 ∧ (110 : ℕ) ≠ 100 := by
  refine ⟨rfl, by decide, by decide⟩

theorem wait_power_on_go_all_off (stateAt : ℕ → States)
    (h : ∀ u, stateAt u ≠ States.ON) :
    ∀ fuel c t, c ≤ 10 → 11 - c ≤ fuel →
      SonyDevice.wait_power_on_go stateAt t c fuel =
        (t + 10 * (11 - c), 11, 1) := by
  intro fuel
  induction fuel with
  | zero =>
    intro c t hc hf
    exact absurd hf (by omega)
  | succ fuel ih =>
    intro c t hc hf
    simp only [SonyDevice.wait_power_on_go]
    rw [if_neg (h (t + 10))]
    by_cases hc' : 10 < c + 1
    · rw [if_pos hc']
      have hceq : c = 10 := by omega
      subst hceq
      norm_num
    · rw [if_neg hc']
      rw [ih (c + 1) (t + 10) (by omega) (by omega)]
      have harith : t + 10 + 10 * (11 - (c + 1)) = t + 10 * (11 - c) := by omega
      rw [harith]

theorem wait_power_on_go_closes_le_one (stateAt : ℕ → States) :
    ∀ fuel t c, (SonyDevice.wait_power_on_go stateAt t c fuel).2.2 ≤ 1 := by
  intro fuel
  induction fuel with
  | zero => intro t c; simp [SonyDevice.wait_power_on_go]
  | succ fuel ih =>
    intro t c
    simp only [SonyDevice.wait_power_on_go]
    split
    · simp
    · split
      · simp
      · exact ih _ _

theorem wait_power_on_on_first (stateAt : ℕ → States)
    (h : stateAt 10 = States.ON) :
    SonyDevice.wait_power_on stateAt = (10, 0, 0) := by
  simp [SonyDevice.wait_power_on, SonyDevice.wait_power_on_go, h]

theorem wait_power_on_go_on_exit (stateAt : ℕ → States) :
    ∀ fuel c t, 11 - c ≤ fuel →
      (∃ k, 1 ≤ k ∧ k ≤ 11 - c ∧ stateAt (t + 10 * k) = States.ON) →
      (SonyDevice.wait_power_on_go stateAt t c fuel).2.2 = 0 := by
  intro fuel
  induction fuel with
  | zero =>
    rintro c t hf ⟨k, hk1, hk2, -⟩
    exact absurd hf (by omega)
  | succ fuel ih =>
    rintro c t hf ⟨k, hk1, hk2, hkON⟩
    simp only [SonyDevice.wait_power_on_go]
    by_cases hON : stateAt (t + 10) = States.ON
    · rw [if_pos hON]
    · rw [if_neg hON]
      have hk2' : 2 ≤ k := by
        rcases Nat.eq_or_lt_of_le hk1 with h1 | h1
        · exfalso
          apply hON
          have h10 : t + 10 * k = t + 10 := by omega
          rw [h10] at hkON
          exact hkON
        · omega
      have hc : ¬ 10 < c + 1 := by omega
      rw [if_neg hc]
      apply ih (c + 1) (t + 10) (by omega)
      refine ⟨k - 1, by omega, by omega, ?_⟩
      have harith : t + 10 + 10 * (k - 1) = t + 10 * k := by omega
      rw [harith]
      exact hkON

/-- C7 (amended): the watchdog polls the state every 10 seconds; whenever the
state is ON at some check within the 11-check window it exits without
invoking `close_connections()` (no side effects), and `close_connections()`
is invoked at most once on any trace; but when the device stays off the
close happens at the 11th check after 110 seconds — `check_number >
max_checks` with `max_checks = 10` first holds then — not within the claimed
100-second / 10-check window. -/
theorem wait_power_on_behavior (f g : ℕ → States)
    (hf : ∀ u, f u ≠ States.ON) (hg : g 10 = States.ON) :
    SonyDevice.wait_power_on f = (110, 11, 1) ∧
    SonyDevice.wait_power_on g = (10, 0, 0) ∧
    (∀ tr : ℕ → States,
      (∃ k, 1 ≤ k ∧ k ≤ 11 ∧ tr (10 * k) = States.ON) →
      (SonyDevice.wait_power_on tr).2.2 = 0) ∧
    (∀ tr : ℕ → States, (SonyDevice.wait_power_on tr).2.2 ≤ 1) := by
  refine ⟨?_, wait_power_on_on_first g hg, ?_, fun tr =>
    wait_power_on_go_closes_le_one tr 12 0 0⟩
  · have h0 := wait_power_on_go_all_off f hf 12 0 0 (by omega) (by omega)
    simpa [SonyDevice.wait_power_on] using h0
  · rintro tr ⟨k, hk1, hk2, hkON⟩
    apply wait_power_on_go_on_exit tr 12 0 0 (by omega)
    refine ⟨k, hk1, by omega, ?_⟩
    simpa using hkON

theorem wait_power_on_behavior_witness :
    SonyDevice.wait_power_on (fun _ => States.OFF) = (110, 11, 1) ∧
    SonyDevice.wait_power_on (fun _ => States.ON) = (10, 0, 0) ∧
    (∀ tr : ℕ → States,
      (∃ k, 1 ≤ k ∧ k ≤ 11 ∧ tr (10 * k) = States.ON) →
      (SonyDevice.wait_power_on tr).2.2 = 0) ∧
    (∀ tr : ℕ → States, (SonyDevice.wait_power_on tr).2.2 ≤ 1) :=
  wait_power_on_behavior (fun _ => States.OFF) (fun _ => States.ON)
    (fun _ => (by decide : States.OFF ≠ States.ON)) rfl

/-- C8 counterexample: on a session with a connect in flight
(`connecting = true`), `disconnect()` is not a no-op — `close_connections()`
returns early, but `disconnect()` still clears the available flag and emits
DISCONNECTED, refuting the claim that both calls leave the flags unchanged
and emit nothing. -/
theorem disconnect_while_connecting_not_noop :
    sessionConnecting.available = true ∧
    (SonyDevice.disconnect sessionConnecting).1.1.available = false ∧
    (SonyDevice.disconnect sessionConnecting).2 = [Event.DISCONNECTED] := by
  refine ⟨rfl, rfl, rfl⟩

/-- C8 (amended): while a connect is in flight, `close_connections()` is a
genuine no-op — state unchanged, no transport call; `disconnect()` likewise
makes no transport call and leaves the powered flag and both task handles
unchanged, but it still clears the available flag and emits DISCONNECTED
when the session id is nonempty. -/
theorem close_connections_while_connecting (s : Session)
    (h : s.connecting = true) :
    SonyDevice.close_connections s = (s, []) ∧
    (SonyDevice.disconnect s).1.1 = { s with available := false } ∧
    (SonyDevice.disconnect s).1.2 = [] ∧
    (SonyDevice.disconnect s).2 =
      (if s.id ≠ "" then [Event.DISCONNECTED] else []) := by
  have h1 : SonyDevice.close_connections s = (s, []) := by
    unfold SonyDevice.close_connections
    rw [if_pos h]
  refine ⟨h1, ?_, ?_, ?_⟩ <;>
    · unfold SonyDevice.disconnect
      rw [h1]

theorem close_connections_while_connecting_witness :
    SonyDevice.close_connections sessionConnecting = (sessionConnecting, []) ∧
    (SonyDevice.disconnect sessionConnecting).1.1 =
      { sessionConnecting with available := false } ∧
    (SonyDevice.disconnect sessionConnecting).1.2 = [] ∧
    (SonyDevice.disconnect sessionConnecting).2 =
      (if sessionConnecting.id ≠ "" then [Event.DISCONNECTED] else []) :=
  close_connections_while_connecting sessionConnecting rfl

/-- C9: calling `connect()` while the connect lock is held is not the no-op
the guard intends: the early `return` runs the `finally` clause, which
clears the connecting flag and releases the lock held by the in-flight
connect — mutating session state and breaking the at-most-one-connect mutual
exclusion — though it makes no transport call and emits no event. -/
theorem connect_guard_releases_lock :
    sessionLocked.connect_lock = true ∧
    sessionLocked.connecting = true ∧
    (SonyDevice.connect transportDown sessionLocked).1.connect_lock = false ∧
    (SonyDevice.connect transportDown sessionLocked).1.connecting = false ∧
    (SonyDevice.connect transportDown sessionLocked).2 = [] := by
  refine ⟨rfl, rfl, rfl, rfl, rfl⟩

/-- C10: `power_off` swallows a transport error with code 40000 ("already
off"), setting the cached state to OFF and letting the available-session
wrapper return OK; a transport error with any other code is re-raised out of
the body and so propagates to the `retry` wrapper. -/
theorem power_off_code_40000 (s : Session) (c : ℕ) (h : c ≠ 40000) :
    SonyDevice.power_off (Except.error 40000) s =
      Except.ok { s with state := States.OFF } ∧
    SonyDevice.power_off (Except.error c) s = Except.error c ∧
    (retry_wrapper 5 true true
      (attempt_of (SonyDevice.power_off (Except.error 40000) s)) 0
      (Except.ok ()) 0 (Except.ok ())).1 = Except.ok StatusCodes.OK := by
  refine ⟨rfl, ?_, rfl⟩
  simp only [SonyDevice.power_off]
  rw [if_neg h]

theorem power_off_code_40000_witness :
    SonyDevice.power_off (Except.error 40000) sessionDefault =
      Except.ok { sessionDefault with state := States.OFF } ∧
    SonyDevice.power_off (Except.error 12) sessionDefault = Except.error 12 ∧
    (retry_wrapper 5 true true
      (attempt_of (SonyDevice.power_off (Except.error 40000) sessionDefault)) 0
      (Except.ok ()) 0 (Except.ok ())).1 = Except.ok StatusCodes.OK :=
  power_off_code_40000 sessionDefault 12 (by decide)
